import Mathlib

/-!
Shallow embedding of the Limine boot-protocol request tables declared in
`src/limine.c` (the full capability catalog) and `src/requests.c` (the minimal
"isolate FB" variant), together with the Exchange Resolver that the design
document describes, and proofs of the specification's claims about them.

All 64-bit words are embedded as `Nat` (the declarations only store literal
constants; no arithmetic ever happens on them, so no wrap-around modelling is
needed).  Pointer-sized slots are also `Nat`, with `0` standing for C's NULL,
the protocol's "absent" sentinel.

Both C files include `limine.h`, which is not part of the repository snapshot.
Every constant whose value only exists in that header is introduced by a
definition whose doc comment starts with `Modelled from the spec:`; three of
those macro values (`LIMINE_COMMON_MAGIC`, the framebuffer identifier, the
HHDM identifier) and the base-revision leading words are spelled out literally
in `requests.c`, which cross-checks the modelling.
-/

set_option maxRecDepth 8192

/-- One kind-specific trailing field of a Request Record: either a plain
64-bit word or a pointer-sized slot (`0` is C's NULL). -/
inductive ReqField where
  | word (v : Nat)
  | ptr (p : Nat)
  deriving DecidableEq

/-- A Request Record exactly as both source files lay it out, fields in
declaration order: the identifier words, then a one-word `revision`, then a
pointer-sized `response` slot (`0` = NULL = the absent sentinel), then the
optional kind-specific trailing fields. -/
structure RequestRecord where
  id : List Nat
  revision : Nat
  response : Nat
  extra : List ReqField
  deriving DecidableEq

/-- One object placed in the `.limine_reqs` section, in declaration order:
the start-marker word array, the base-revision marker (its two leading words
and its revision word), one Request Record, or the end-marker word array. -/
inductive TableEntry where
  | startMarker (ws : List Nat)
  | baseRev (magic : List Nat) (revision : Nat)
  | request (r : RequestRecord)
  | endMarker (ws : List Nat)
  deriving DecidableEq

/-- The two common-magic words that begin every request identifier;
spelled out literally in `requests.c` line 4 (`LIMINE_COMMON_MAGIC`). -/
def LIMINE_COMMON_MAGIC : List Nat := [0xc7b1dd30df4c8b88, 0x0a82e883a194fcf1]

/-- Modelled from the spec: `limine.h` is missing from `src/`; the start
sentinel is "a fixed 4-word pattern, unique constant".  Value of the header's
`LIMINE_REQUESTS_START_MARKER` macro used by `limine.c` lines 10-11. -/
def LIMINE_REQUESTS_START_MARKER : List Nat :=
  [0xf6b8f4b39de7d1ae, 0xfab91a6940fcb9cf, 0x785c6ed015d3e316, 0x181e920a7852b9d9]

/-- Modelled from the spec: `limine.h` is missing from `src/`; the end
sentinel is "a fixed 2-word pattern, unique constant".  Value of the header's
`LIMINE_REQUESTS_END_MARKER` macro used by `limine.c` lines 166-167. -/
def LIMINE_REQUESTS_END_MARKER : List Nat :=
  [0xadc0e0531bb10d03, 0x9572709f31764c62]

/-- The two leading words of the base-revision marker, common to both
variants; spelled out literally in `requests.c` line 34, and produced by the
missing header's `LIMINE_BASE_REVISION(N)` macro in `limine.c` line 16. -/
def LIMINE_BASE_REVISION_MAGIC : List Nat :=
  [0xf9562b2d5c95a6c8, 0x6a7b384944536bdc]

/-- Modelled from the spec: identifier macro value from the missing
`limine.h`, used by `limine.c` line 22. -/
def LIMINE_BOOTLOADER_INFO_REQUEST_ID : List Nat :=
  LIMINE_COMMON_MAGIC ++ [0xf55038d8e2a1202f, 0x279426fcf5f59740]

/-- Modelled from the spec: identifier macro value from the missing
`limine.h`, used by `limine.c` line 30. -/
def LIMINE_EXECUTABLE_CMDLINE_REQUEST_ID : List Nat :=
  LIMINE_COMMON_MAGIC ++ [0x4b161536e598651e, 0xb390ad4a2f1f303a]

/-- Modelled from the spec: identifier macro value from the missing
`limine.h`, used by `limine.c` line 38. -/
def LIMINE_FIRMWARE_TYPE_REQUEST_ID : List Nat :=
  LIMINE_COMMON_MAGIC ++ [0x8c2f75d90bef28a8, 0x7045a4688eac00c3]

/-- Modelled from the spec: identifier macro value from the missing
`limine.h`, used by `limine.c` line 43. -/
def LIMINE_STACK_SIZE_REQUEST_ID : List Nat :=
  LIMINE_COMMON_MAGIC ++ [0x224ef0460a8e8926, 0xe1cb0fc25f46ea3d]

/-- The HHDM identifier; spelled out literally in `requests.c` line 50, and
the missing header's `LIMINE_HHDM_REQUEST_ID` macro in `limine.c` line 53. -/
def LIMINE_HHDM_REQUEST_ID : List Nat :=
  LIMINE_COMMON_MAGIC ++ [0x48dcf1cb8ad2b852, 0x63984e959a98244b]

/-- The framebuffer identifier; spelled out literally in `requests.c`
line 40, and the missing header's `LIMINE_FRAMEBUFFER_REQUEST_ID` macro in
`limine.c` line 59. -/
def LIMINE_FRAMEBUFFER_REQUEST_ID : List Nat :=
  LIMINE_COMMON_MAGIC ++ [0x9d5827dcd881dd75, 0xa77e8b6979cf5778]

/-- Modelled from the spec: identifier macro value from the missing
`limine.h`, used by `limine.c` line 64. -/
def LIMINE_PAGING_MODE_REQUEST_ID : List Nat :=
  LIMINE_COMMON_MAGIC ++ [0x95c1a0edab0944cb, 0xa4e5cb3842f7488a]

/-- Modelled from the spec: identifier macro value from the missing
`limine.h`, used by `limine.c` line 75. -/
def LIMINE_MP_REQUEST_ID : List Nat :=
  LIMINE_COMMON_MAGIC ++ [0x95a67b819a1b857e, 0xa0b61b723b6a73e0]

/-- Modelled from the spec: identifier macro value from the missing
`limine.h`, used by `limine.c` line 81. -/
def LIMINE_MEMMAP_REQUEST_ID : List Nat :=
  LIMINE_COMMON_MAGIC ++ [0x67cf3d9d378a806f, 0xe304acdfc50c3c62]

/-- Modelled from the spec: identifier macro value from the missing
`limine.h`, used by `limine.c` line 87. -/
def LIMINE_EXECUTABLE_FILE_REQUEST_ID : List Nat :=
  LIMINE_COMMON_MAGIC ++ [0xad97e90e83f1ed67, 0x31eb5d1c5ff23b69]

/-- Modelled from the spec: identifier macro value from the missing
`limine.h`, used by `limine.c` line 94. -/
def LIMINE_MODULE_REQUEST_ID : List Nat :=
  LIMINE_COMMON_MAGIC ++ [0x3e7e279702be32af, 0xca1c4f3bd1280cee]

/-- Modelled from the spec: identifier macro value from the missing
`limine.h`, used by `limine.c` line 105. -/
def LIMINE_RSDP_REQUEST_ID : List Nat :=
  LIMINE_COMMON_MAGIC ++ [0xc5e77b6b397e7b43, 0x27637845accdcf3c]

/-- Modelled from the spec: identifier macro value from the missing
`limine.h`, used by `limine.c` line 111. -/
def LIMINE_SMBIOS_REQUEST_ID : List Nat :=
  LIMINE_COMMON_MAGIC ++ [0x9e9046f11e095391, 0xaa4a520fefbde5ee]

/-- Modelled from the spec: identifier macro value from the missing
`limine.h`, used by `limine.c` line 117. -/
def LIMINE_EFI_SYSTEM_TABLE_REQUEST_ID : List Nat :=
  LIMINE_COMMON_MAGIC ++ [0x5ceba5163eaaf6d6, 0x0a6981610cf65fcc]

/-- Modelled from the spec: identifier macro value from the missing
`limine.h`, used by `limine.c` line 125. -/
def LIMINE_EFI_MEMMAP_REQUEST_ID : List Nat :=
  LIMINE_COMMON_MAGIC ++ [0x7df62a431d6872d5, 0xa4fcdfb3e57306c8]

/-- Modelled from the spec: identifier macro value from the missing
`limine.h`, used by `limine.c` line 131. -/
def LIMINE_DATE_AT_BOOT_REQUEST_ID : List Nat :=
  LIMINE_COMMON_MAGIC ++ [0x502746e184c088aa, 0xfbc5ec83e6327893]

/-- Modelled from the spec: identifier macro value from the missing
`limine.h`, used by `limine.c` line 137. -/
def LIMINE_EXECUTABLE_ADDRESS_REQUEST_ID : List Nat :=
  LIMINE_COMMON_MAGIC ++ [0x71ba76863cc55f63, 0xb2644a48c516a487]

/-- Modelled from the spec: identifier macro value from the missing
`limine.h`, used by `limine.c` line 145. -/
def LIMINE_DTB_REQUEST_ID : List Nat :=
  LIMINE_COMMON_MAGIC ++ [0xb40ddb48fb54bac7, 0x545081493f81ffb7]

/-- Modelled from the spec: identifier macro value from the missing
`limine.h`, used by `limine.c` line 151. -/
def LIMINE_RISCV_BSP_HARTID_REQUEST_ID : List Nat :=
  LIMINE_COMMON_MAGIC ++ [0x1369359f025525f9, 0x2ff2a56178391bb6]

/-- Modelled from the spec: identifier macro value from the missing
`limine.h`, used by `limine.c` line 161; the header value for this newest
request is not recoverable from `src/`, so per the spec's uniqueness
invariant it is modelled as a constant distinct from every other identifier
and from both sentinel patterns. -/
def LIMINE_BOOTLOADER_PERFORMANCE_REQUEST_ID : List Nat :=
  LIMINE_COMMON_MAGIC ++ [0x40c3714d9293f163, 0x6b223a4c1fd28f62]

namespace LimineC

/-- `limine.c` lines 9-11: `uint64_t limine_reqs_start_marker[4]`. -/
def limine_reqs_start_marker : List Nat := LIMINE_REQUESTS_START_MARKER

/-- `limine.c` lines 13-16: `uint64_t base_revision[3] = LIMINE_BASE_REVISION(3)`. -/
def base_revision : TableEntry := TableEntry.baseRev LIMINE_BASE_REVISION_MAGIC 3

/-- `limine.c` lines 18-24. -/
def bootloader_info_request : RequestRecord :=
  { id := LIMINE_BOOTLOADER_INFO_REQUEST_ID, revision := 0, response := 0, extra := [] }

/-- `limine.c` lines 26-32. -/
def executable_cmdline_request : RequestRecord :=
  { id := LIMINE_EXECUTABLE_CMDLINE_REQUEST_ID, revision := 0, response := 0, extra := [] }

/-- `limine.c` lines 34-38. -/
def firmware_type_request : RequestRecord :=
  { id := LIMINE_FIRMWARE_TYPE_REQUEST_ID, revision := 0, response := 0, extra := [] }

/-- `limine.c` lines 40-46; the trailing field is `.stack_size = 0`. -/
def stack_size_request : RequestRecord :=
  { id := LIMINE_STACK_SIZE_REQUEST_ID, revision := 0, response := 0,
    extra := [ReqField.word 0] }

/-- `limine.c` lines 48-53, revision 1. -/
def hhdm_request : RequestRecord :=
  { id := LIMINE_HHDM_REQUEST_ID, revision := 1, response := 0, extra := [] }

/-- `limine.c` lines 55-59, revision 1. -/
def framebuffer_request : RequestRecord :=
  { id := LIMINE_FRAMEBUFFER_REQUEST_ID, revision := 1, response := 0, extra := [] }

/-- `limine.c` lines 61-69; the trailing fields are `.mode = 0`,
`.max_mode = 0`, `.min_mode = 0`, in that order. -/
def paging_mode_request : RequestRecord :=
  { id := LIMINE_PAGING_MODE_REQUEST_ID, revision := 0, response := 0,
    extra := [ReqField.word 0, ReqField.word 0, ReqField.word 0] }

/-- `limine.c` lines 71-75; the trailing field is `.flags = 0`. -/
def mp_request : RequestRecord :=
  { id := LIMINE_MP_REQUEST_ID, revision := 0, response := 0,
    extra := [ReqField.word 0] }

/-- `limine.c` lines 77-81. -/
def memmap_request : RequestRecord :=
  { id := LIMINE_MEMMAP_REQUEST_ID, revision := 0, response := 0, extra := [] }

/-- `limine.c` lines 83-89. -/
def executable_file_request : RequestRecord :=
  { id := LIMINE_EXECUTABLE_FILE_REQUEST_ID, revision := 0, response := 0, extra := [] }

/-- `limine.c` lines 91-98, revision 1; the trailing fields are
`.internal_module_count = 0` and `.internal_modules = NULL`, in that order. -/
def module_request : RequestRecord :=
  { id := LIMINE_MODULE_REQUEST_ID, revision := 1, response := 0,
    extra := [ReqField.word 0, ReqField.ptr 0] }

/-- `limine.c` lines 100-105. -/
def rsdp_request : RequestRecord :=
  { id := LIMINE_RSDP_REQUEST_ID, revision := 0, response := 0, extra := [] }

/-- `limine.c` lines 107-111. -/
def smbios_request : RequestRecord :=
  { id := LIMINE_SMBIOS_REQUEST_ID, revision := 0, response := 0, extra := [] }

/-- `limine.c` lines 113-119. -/
def efi_system_table_request : RequestRecord :=
  { id := LIMINE_EFI_SYSTEM_TABLE_REQUEST_ID, revision := 0, response := 0, extra := [] }

/-- `limine.c` lines 121-125. -/
def efi_memmap_request : RequestRecord :=
  { id := LIMINE_EFI_MEMMAP_REQUEST_ID, revision := 0, response := 0, extra := [] }

/-- `limine.c` lines 127-131. -/
def date_at_boot_request : RequestRecord :=
  { id := LIMINE_DATE_AT_BOOT_REQUEST_ID, revision := 0, response := 0, extra := [] }

/-- `limine.c` lines 133-139. -/
def executable_address_request : RequestRecord :=
  { id := LIMINE_EXECUTABLE_ADDRESS_REQUEST_ID, revision := 0, response := 0, extra := [] }

/-- `limine.c` lines 141-145. -/
def dtb_request : RequestRecord :=
  { id := LIMINE_DTB_REQUEST_ID, revision := 0, response := 0, extra := [] }

/-- `limine.c` lines 147-153. -/
def riscv_bsp_hartid_request : RequestRecord :=
  { id := LIMINE_RISCV_BSP_HARTID_REQUEST_ID, revision := 0, response := 0, extra := [] }

/-- `limine.c` lines 155-163. -/
def bootloader_performance_request : RequestRecord :=
  { id := LIMINE_BOOTLOADER_PERFORMANCE_REQUEST_ID, revision := 0, response := 0,
    extra := [] }

/-- `limine.c` lines 165-167: `uint64_t limine_reqs_end_marker[2]`. -/
def limine_reqs_end_marker : List Nat := LIMINE_REQUESTS_END_MARKER

/-- The entire `.limine_reqs` section of `limine.c`, every declaration in
source order (lines 9-167). -/
def table : List TableEntry :=
  [TableEntry.startMarker limine_reqs_start_marker,
   base_revision,
   TableEntry.request bootloader_info_request,
   TableEntry.request executable_cmdline_request,
   TableEntry.request firmware_type_request,
   TableEntry.request stack_size_request,
   TableEntry.request hhdm_request,
   TableEntry.request framebuffer_request,
   TableEntry.request paging_mode_request,
   TableEntry.request mp_request,
   TableEntry.request memmap_request,
   TableEntry.request executable_file_request,
   TableEntry.request module_request,
   TableEntry.request rsdp_request,
   TableEntry.request smbios_request,
   TableEntry.request efi_system_table_request,
   TableEntry.request efi_memmap_request,
   TableEntry.request date_at_boot_request,
   TableEntry.request executable_address_request,
   TableEntry.request dtb_request,
   TableEntry.request riscv_bsp_hartid_request,
   TableEntry.request bootloader_performance_request,
   TableEntry.endMarker limine_reqs_end_marker]

end LimineC

namespace RequestsC

/-- `requests.c` lines 30-34: `struct limine_base_revision base_revision`
with `.id = {0xf9562b2d5c95a6c8, 0x6a7b384944536bdc}` and `.revision = 0`. -/
def base_revision : TableEntry := TableEntry.baseRev LIMINE_BASE_REVISION_MAGIC 0

/-- `requests.c` lines 36-43: framebuffer request, revision 0, response
explicitly NULL. -/
def framebuffer_request : RequestRecord :=
  { id := LIMINE_FRAMEBUFFER_REQUEST_ID, revision := 0, response := 0, extra := [] }

/-- `requests.c` lines 45-52: the HHDM request.  The comment above it (line
45) says it is "temporarily disabled/commented out to isolate FB", but the
declaration itself is live code. -/
def hhdm_request : RequestRecord :=
  { id := LIMINE_HHDM_REQUEST_ID, revision := 0, response := 0, extra := [] }

/-- The entire `.limine_reqs` section of `requests.c`, every declaration in
source order (lines 30-52).  Note: the file declares no start or end marker. -/
def table : List TableEntry :=
  [base_revision,
   TableEntry.request framebuffer_request,
   TableEntry.request hhdm_request]

end RequestsC

/-- Is this entry the start-marker word array? -/
def isStartMarker : TableEntry → Bool
  | TableEntry.startMarker _ => true
  | _ => false

/-- Is this entry the base-revision marker? -/
def isBaseRev : TableEntry → Bool
  | TableEntry.baseRev _ _ => true
  | _ => false

/-- Is this entry a Request Record? -/
def isRequest : TableEntry → Bool
  | TableEntry.request _ => true
  | _ => false

/-- Is this entry the end-marker word array? -/
def isEndMarker : TableEntry → Bool
  | TableEntry.endMarker _ => true
  | _ => false

/-- The Request Records of a table, in section order. -/
def requestsOf (t : List TableEntry) : List RequestRecord :=
  t.filterMap fun e =>
    match e with
    | TableEntry.request r => some r
    | _ => none

/-- The identifiers of a table's Request Records, in section order. -/
def tableIds (t : List TableEntry) : List (List Nat) :=
  (requestsOf t).map fun r => r.id

/-- The base-revision markers of a table (leading words and revision),
in section order. -/
def baseEntries (t : List TableEntry) : List (List Nat × Nat) :=
  t.filterMap fun e =>
    match e with
    | TableEntry.baseRev m r => some (m, r)
    | _ => none

/-- Everything after the first two entries of a well-bracketed region:
zero or more Request Records and then the end sentinel, nothing else. -/
def shapeTail : List TableEntry → Bool
  | [] => false
  | [e] => isEndMarker e
  | e :: rest => isRequest e && shapeTail rest

/-- The region shape the Builder contract requires: a start sentinel, then
the base-revision marker, then zero or more Request Records, then an end
sentinel — so every Request Record lies strictly between the sentinels. -/
def tableShape (t : List TableEntry) : Bool :=
  match t with
  | e0 :: e1 :: rest => isStartMarker e0 && isBaseRev e1 && shapeTail rest
  | _ => false

/-- No entry of the table is a start or end sentinel. -/
def sentinelFree (t : List TableEntry) : Bool :=
  t.all fun e => !(isStartMarker e || isEndMarker e)

/-- The table is the base-revision marker followed by Request Records only. -/
def baseThenRequests : List TableEntry → Bool
  | TableEntry.baseRev _ _ :: rest => rest.all isRequest
  | _ => false

/-- No Request Record appears before the (first) base-revision marker. -/
def noRequestBeforeBase : List TableEntry → Bool
  | [] => true
  | e :: rest => if isBaseRev e then true else !isRequest e && noRequestBeforeBase rest

/-- Every element of the list is distinct from every other element. -/
def allDistinct : List (List Nat) → Bool
  | [] => true
  | x :: xs => !(xs.contains x) && allDistinct xs

/-- The per-record layout the wire format prescribes for the identifier:
4 words, of which the first 2 are the common-magic words. -/
def idLayoutOk (r : RequestRecord) : Bool :=
  r.id.length == 4 && r.id.take 2 == LIMINE_COMMON_MAGIC

/-- The absent sentinel for a response slot: zero/NULL. -/
def absentSentinel : Nat := 0

/-- Modelled from the spec: a Response Record, owned by the provider — the
revision actually delivered plus a kind-specific payload word.  `src/` holds
only the build-time request tables, so the Response Record exists only in the
design document's data model. -/
structure ResponseRecord where
  revision : Nat
  payload : Nat
  deriving DecidableEq

/-- Modelled from the spec: the resolved outcome the Capability Negotiator
exposes, "two polymorphic variants per capability:
`Satisfied{response, revision}` and `Unsatisfied`". -/
inductive Outcome where
  | Unsatisfied
  | Satisfied (revision : Nat) (response : ResponseRecord)
  deriving DecidableEq

/-- Modelled from the spec: the Exchange Resolver's per-record step, absent
from `src/`.  "For each matched Request Record, read `response_slot`: if it
equals the absent sentinel, the capability is unsatisfied ... Otherwise,
dereference into the Response Record and read its `revision` field."
Memory is a map from addresses to Response Records. -/
def resolveRequest (mem : Nat → ResponseRecord) (r : RequestRecord) : Outcome :=
  if r.response = absentSentinel then Outcome.Unsatisfied
  else Outcome.Satisfied (mem r.response).revision (mem r.response)

/-- C1, counterexample: the claim says *every* variant of the request table
is bracketed as start sentinel, base-revision marker, Request Records, end
sentinel — but the minimal variant (`requests.c`) declares no sentinels at
all, so its region does not have that shape. -/
theorem minimal_table_not_bracketed : tableShape RequestsC.table = false := by decide

/-- C1, amended: the full-catalog variant (`limine.c`) is bracketed exactly
as claimed — start sentinel, base-revision marker, zero or more Request
Records, end sentinel, every record strictly between the sentinels — while
the minimal variant (`requests.c`) carries no sentinels and consists of the
base-revision marker followed by its Request Records. -/
theorem table_bracketing :
    tableShape LimineC.table = true ∧
      sentinelFree RequestsC.table = true ∧
      baseThenRequests RequestsC.table = true := by decide

/-- C2: in both variants, every Request Record's response slot is
initialized at build time to the absent sentinel (zero/NULL). -/
theorem response_slots_absent_at_build :
    ((requestsOf LimineC.table ++ requestsOf RequestsC.table).all fun r =>
      r.response == absentSentinel) = true := by decide

/-- C3: the identifiers of distinct capability kinds are pairwise distinct
within each variant's table, and every identifier differs from both the
start-sentinel pattern and the end-sentinel pattern. -/
theorem identifiers_pairwise_distinct :
    allDistinct (tableIds LimineC.table) = true ∧
      allDistinct (tableIds RequestsC.table) = true ∧
      ((tableIds LimineC.table ++ tableIds RequestsC.table).all fun i =>
        !(i == LIMINE_REQUESTS_START_MARKER) && !(i == LIMINE_REQUESTS_END_MARKER)) =
        true := by decide

/-- C4: every Request Record in both variants has a 4-word identifier whose
first 2 words are the common-magic words (the rest of the claimed layout —
one revision word, then a pointer-sized response slot, then the optional
kind-specific trailing words — is the field order of `RequestRecord`, which
embeds the struct layouts of both source files). -/
theorem request_record_id_layout :
    ((requestsOf LimineC.table ++ requestsOf RequestsC.table).all idLayoutOk) = true := by
  decide

/-- C5: each variant's table contains exactly one base-revision marker, its
leading words are the 2-word common base-revision words (followed, by the
shape of `TableEntry.baseRev`, by the 1-word revision integer), and no
Request Record appears before it. -/
theorem base_revision_marker_unique_and_first :
    (baseEntries LimineC.table).length = 1 ∧
      noRequestBeforeBase LimineC.table = true ∧
      (baseEntries RequestsC.table).length = 1 ∧
      noRequestBeforeBase RequestsC.table = true ∧
      ((baseEntries LimineC.table ++ baseEntries RequestsC.table).all fun p =>
        p.1 == LIMINE_BASE_REVISION_MAGIC && p.1.length == 2) = true := by decide

/-- C6: the full-catalog variant declares base revision 3 and requests HHDM,
framebuffer and module at revision 1 with every other request at revision 0;
the minimal variant declares base revision 0 and requests exactly the
framebuffer and HHDM capabilities, both at revision 0. -/
theorem variant_revisions :
    baseEntries LimineC.table = [(LIMINE_BASE_REVISION_MAGIC, 3)] ∧
      ((requestsOf LimineC.table).all fun r =>
        r.revision ==
          (if r.id == LIMINE_HHDM_REQUEST_ID || r.id == LIMINE_FRAMEBUFFER_REQUEST_ID ||
              r.id == LIMINE_MODULE_REQUEST_ID then
            1
          else 0)) = true ∧
      baseEntries RequestsC.table = [(LIMINE_BASE_REVISION_MAGIC, 0)] ∧
      tableIds RequestsC.table = [LIMINE_FRAMEBUFFER_REQUEST_ID, LIMINE_HHDM_REQUEST_ID] ∧
      ((requestsOf RequestsC.table).all fun r => r.revision == 0) = true := by decide

/-- C7, code evaluation: the full-catalog variant does declare 15 or more
capability requests (it has 20), but the HHDM request is *present* in the
minimal variant's table even though the comment directly above it in
`requests.c` (line 45) says it is "temporarily disabled/commented out to
isolate FB" — the declaration right below that comment is live. -/
theorem hhdm_present_in_minimal_variant :
    15 ≤ (requestsOf LimineC.table).length ∧
      ((requestsOf RequestsC.table).any fun r => r.id == LIMINE_HHDM_REQUEST_ID) =
        true := by decide

/-- C8: the start sentinel is a fixed 4-word constant and the end sentinel a
fixed 2-word constant (`limine.c` declares `limine_reqs_start_marker[4]` and
`limine_reqs_end_marker[2]`), and they are the first and last entries of the
full-catalog region. -/
theorem sentinel_shapes :
    LimineC.limine_reqs_start_marker.length = 4 ∧
      LimineC.limine_reqs_end_marker.length = 2 ∧
      LimineC.table.head? = some (TableEntry.startMarker LIMINE_REQUESTS_START_MARKER) ∧
      LimineC.table.getLast? = some (TableEntry.endMarker LIMINE_REQUESTS_END_MARKER) := by
  decide

/-- C9: a Request Record whose response slot equals the absent sentinel is
resolved to `Unsatisfied` by the Exchange Resolver, whatever its identifier,
revision, trailing fields, or the contents of memory. -/
theorem absent_slot_resolves_unsatisfied (mem : Nat → ResponseRecord)
    (r : RequestRecord) (h : r.response = absentSentinel) :
    resolveRequest mem r = Outcome.Unsatisfied := by
  simp [resolveRequest, h]

/-- C9, witness: the build-time framebuffer request of the minimal variant
has an absent response slot, and the resolver maps it to `Unsatisfied`. -/
theorem absent_slot_resolves_unsatisfied_witness :
    RequestsC.framebuffer_request.response = absentSentinel ∧
      resolveRequest (fun _ => ResponseRecord.mk 0 0) RequestsC.framebuffer_request =
        Outcome.Unsatisfied :=
  ⟨rfl,
    absent_slot_resolves_unsatisfied (fun _ => ResponseRecord.mk 0 0)
      RequestsC.framebuffer_request rfl⟩

/-- C10: in the full-catalog variant every optional request-specific input
field is zero/NULL at build time — the stack-size request's `stack_size`,
the paging-mode request's `mode`, `max_mode` and `min_mode`, the MP
request's `flags`, and the module request's `internal_module_count` and
`internal_modules` (fields listed in their source declaration order). -/
theorem optional_inputs_zeroed :
    LimineC.stack_size_request.extra = [ReqField.word 0] ∧
      LimineC.paging_mode_request.extra =
        [ReqField.word 0, ReqField.word 0, ReqField.word 0] ∧
      LimineC.mp_request.extra = [ReqField.word 0] ∧
      LimineC.module_request.extra = [ReqField.word 0, ReqField.ptr 0] :=
  ⟨rfl, rfl, rfl, rfl⟩
